import Mathlib

/-
  Shallow embedding of the configuration-resolution and bootstrap subsystem
  of compiler/globals.py (OpenRAM).

  The Python OPTS object is modelled as a Store: a map from attribute name to
  an optional value (none = attribute absent from OPTS.__dict__).  A config
  module dict is a list of key/value pairs in iteration order (Python dicts
  have unique keys; where that matters a Nodup hypothesis is stated).
-/

namespace OpenRAM

/- ================== DEFINITIONS (from the source) ================== -/

/-- Python values that the configuration code manipulates. -/
inductive Val where
  | str : String → Val
  | int : Int → Val
  | bool : Bool → Val
deriving DecidableEq, Repr

/-- OPTS.__dict__ : attribute name to value; none means the key is absent. -/
def Store := String → Option Val

/-- Assignment OPTS.__dict__[k] = v. -/
def setKey (s : Store) (k : String) (v : Val) : Store :=
  fun q => if q = k then some v else s q

/-- Python str.endswith, on the underlying character list. -/
def pyEndsWith (s t : String) : Bool := t.data.isSuffixOf s.data

/-- Python str.startswith, on the underlying character list. -/
def pyStartsWith (s t : String) : Bool := t.data.isPrefixOf s.data

/-- Python truthiness for the values in Val (used by: if OPTS.netlist_only). -/
def pyTruthy : Option Val → Bool
  | some (Val.bool b) => b
  | some (Val.int n) => n ≠ 0
  | some (Val.str s) => s ≠ ""
  | none => false

/-- Python str() of a value, as used by str.format. -/
def pyStr : Val → String
  | Val.str s => s
  | Val.int n => toString n
  | Val.bool b => if b then "True" else "False"

/-- str() of an attribute lookup (the options object defines all keys used
by the format template, so the none case is unreachable in practice). -/
def pyStrOpt : Option Val → String
  | some v => pyStr v
  | none => ""

/-- One iteration of the merge loop in read_config (globals.py lines
200-206): the script value is applied iff the key is absent from
OPTS.__dict__ or the key is the technology-name key. -/
def applyConfigItem (opts : Store) (kv : String × Val) : Store :=
  if opts kv.1 = none ∨ kv.1 = "tech_name" then setKey opts kv.1 kv.2 else opts

/-- The whole merge loop: for k,v in config.__dict__.items(). -/
def mergeConfig (opts : Store) (config : List (String × Val)) : Store :=
  config.foldl applyConfigItem opts

/-- Lines 209-210: if not OPTS.output_path.endswith, append a slash. -/
def ensureTrailingSlash (p : String) : String :=
  if pyEndsWith p "/" then p else p ++ "/"

/-- Lines 211-212: if not OPTS.output_path.startswith a slash, prefix the
current working directory. -/
def ensureAbsolute (cwd p : String) : String :=
  if pyStartsWith p "/" then p else cwd ++ "/" ++ p

/-- Output-path massaging in read_config (lines 209-212): append a slash if
missing, then prefix the current working directory if not absolute. -/
def normalizeOutputPath (cwd p : String) : String :=
  ensureAbsolute cwd (ensureTrailingSlash p)

/-- Post-merge step 1 (lines 209-212): normalize OPTS.output_path.  The
attribute is always a string in practice; other shapes are left unchanged. -/
def postOutputPath (cwd : String) (opts : Store) : Store :=
  match opts "output_path" with
  | some (Val.str p) => setKey opts "output_path" (Val.str (normalizeOutputPath cwd p))
  | _ => opts

/-- Post-merge step 2 (line 216): OPTS.is_unit_test = is_unit_test. -/
def postUnitTest (iut : Bool) (opts : Store) : Store :=
  setKey opts "is_unit_test" (Val.bool iut)

/-- Post-merge step 3 (lines 219-220): netlist-only mode forces
check_lvsdrc off. -/
def postNetlistOnly (opts : Store) : Store :=
  if pyTruthy (opts "netlist_only") then setKey opts "check_lvsdrc" (Val.bool false) else opts

/-- The default output name template of lines 224-230:
sram_{word_size}b_{num_words}w_{num_banks}bank_{rw}rw_{w}w_{r}r_{tech}. -/
def formatOutputName (opts : Store) : String :=
  "sram_" ++ pyStrOpt (opts "word_size") ++ "b_" ++ pyStrOpt (opts "num_words") ++
  "w_" ++ pyStrOpt (opts "num_banks") ++ "bank_" ++ pyStrOpt (opts "num_rw_ports") ++
  "rw_" ++ pyStrOpt (opts "num_w_ports") ++ "w_" ++ pyStrOpt (opts "num_r_ports") ++
  "r_" ++ pyStrOpt (opts "tech_name")

/-- Post-merge step 4 (lines 223-230): synthesize output_name if empty. -/
def postOutputName (opts : Store) : Store :=
  if opts "output_name" = some (Val.str "") then
    setKey opts "output_name" (Val.str (formatOutputName opts))
  else opts

/-- All post-merge derivations of read_config in source order. -/
def read_config_post (cwd : String) (iut : Bool) (opts : Store) : Store :=
  postOutputName (postNetlistOnly (postUnitTest iut (postOutputPath cwd opts)))

/-- read_config effect on OPTS: merge the config module dict, then apply the
post-merge derivations (directory creation is modelled separately). -/
def read_config_opts (cwd : String) (iut : Bool) (opts : Store)
    (config : List (String × Val)) : Store :=
  read_config_post cwd iut (mergeConfig opts config)

/-- Tech-name normalization at the end of parse_args (lines 55-64): empty
means unspecified and becomes scmos, and scmos is aliased to scn3me_subm. -/
def parse_args_tech (tech_name : String) : String :=
  let t := if tech_name = "" then "scmos" else tech_name
  if t = "scmos" then "scn3me_subm" else t

/-- A store as it looks after CLI parsing: word_size set by the CLI (for the
witness), tech name and the attributes the post-merge steps read. -/
def demoOpts : Store := fun k =>
  if k = "word_size" then some (Val.int 8)
  else if k = "tech_name" then some (Val.str "scn3me_subm")
  else if k = "output_path" then some (Val.str "/tmp/x")
  else if k = "output_name" then some (Val.str "mysram")
  else if k = "netlist_only" then some (Val.bool false)
  else none

/-- A config-script module dict for the witnesses: it tries to override the
CLI word_size and output_path, sets the tech name, and adds a new key. -/
def demoConfig : List (String × Val) :=
  [("word_size", Val.int 16), ("tech_name", Val.str "freepdk45"),
   ("output_path", Val.str "/tmp/y"), ("num_words", Val.int 32)]

/-- A directory entry in the model filesystem: a plain file, a symbolic
link, or a sub-directory with named children. -/
inductive FSEntry where
  | file : FSEntry
  | symlink : FSEntry
  | dir : List (String × FSEntry) → FSEntry

/-- One iteration of the removal loop (lines 268-272): os.remove for plain
files and symlinks, shutil.rmtree for sub-directories; either way the named
entry disappears from the directory listing. -/
def removeEntry (cs : List (String × FSEntry)) (c : String × FSEntry) :
    List (String × FSEntry) :=
  match c.2 with
  | FSEntry.file => cs.eraseP (fun e => e.1 == c.1)
  | FSEntry.symlink => cs.eraseP (fun e => e.1 == c.1)
  | FSEntry.dir _ => cs.eraseP (fun e => e.1 == c.1)

/-- The removal loop of cleanup_paths: contents are listed once
(os.listdir, line 267) and then each listed entry is removed from the live
directory. -/
def purgeContents (cs : List (String × FSEntry)) : List (String × FSEntry) :=
  cs.foldl removeEntry cs

/-- cleanup_paths (lines 256-272) acting on the filesystem entry at
OPTS.openram_temp (none = the path does not exist).  Python os.listdir
raises when the existing path is not a directory; modelled as an error. -/
def cleanup_paths (purge_temp : Bool) (t : Option FSEntry) :
    Except String (Option FSEntry) :=
  if purge_temp = false then Except.ok t
  else match t with
    | none => Except.ok none
    | some (FSEntry.dir cs) => Except.ok (some (FSEntry.dir (purgeContents cs)))
    | some _ => Except.error "NotADirectoryError"

/-- A temp directory holding a file, a symlink and a sub-directory, as in
the scenario of the claim. -/
def demoTempDir : List (String × FSEntry) :=
  [("sram.sp", FSEntry.file), ("alias.gds", FSEntry.symlink),
   ("scratch", FSEntry.dir [("inner.log", FSEntry.file)])]

/-- Outcome of an os.makedirs call, as raised by the runtime. -/
inductive MakedirsOutcome where
  | success : MakedirsOutcome
  | osError : Nat → MakedirsOutcome
  | otherExc : MakedirsOutcome
deriving DecidableEq

/-- What the surrounding handlers turn the call into. -/
inductive CreateStatus where
  | ok : CreateStatus
  | fatalError : String → Int → CreateStatus
  | uncaught : CreateStatus
deriving DecidableEq

/-- The output-directory creation of read_config (lines 232-240): makedirs
with mode 0o750 (= 488); OSError with errno 17 leads to chmod 0o750; any
other OSError is caught by the same handler, whose body then does nothing;
a non-OSError exception falls to the bare handler, which calls debug.error.
The directory is Option Nat: none = absent, some m = present with mode m. -/
def makeOutputDir (d : Option Nat) (outcome : MakedirsOutcome) :
    Option Nat × CreateStatus :=
  match outcome with
  | MakedirsOutcome.success => (some 488, CreateStatus.ok)
  | MakedirsOutcome.osError e =>
      if e = 17 then (d.map (fun _ => 488), CreateStatus.ok)
      else (d, CreateStatus.ok)
  | MakedirsOutcome.otherExc =>
      (d, CreateStatus.fatalError "Unable to make output directory." (-1))

/-- The temp-directory creation of setup_paths (lines 302-307): the same
OSError handler, but with no bare except clause, so a non-OSError
exception propagates out uncaught. -/
def makeTempDir (d : Option Nat) (outcome : MakedirsOutcome) :
    Option Nat × CreateStatus :=
  match outcome with
  | MakedirsOutcome.success => (some 488, CreateStatus.ok)
  | MakedirsOutcome.osError e =>
      if e = 17 then (d.map (fun _ => 488), CreateStatus.ok)
      else (d, CreateStatus.ok)
  | MakedirsOutcome.otherExc => (d, CreateStatus.uncaught)

/-- Fault-free behaviour of os.makedirs: OSError errno 17 when the path
already exists, success otherwise. -/
def makedirsDefaultOutcome (d : Option Nat) : MakedirsOutcome :=
  match d with
  | some _ => MakedirsOutcome.osError 17
  | none => MakedirsOutcome.success

/-- One fault-free preparation of the output directory. -/
def prepareOutputDir (d : Option Nat) : Option Nat × CreateStatus :=
  makeOutputDir d (makedirsDefaultOutcome d)

/-- One fault-free preparation of the temporary directory. -/
def prepareTempDir (d : Option Nat) : Option Nat × CreateStatus :=
  makeTempDir d (makedirsDefaultOutcome d)

/-- The search environment: the PATH entries in order, and the set of
paths that exist as executable, accessible files. -/
structure SearchEnv where
  pathDirs : List String
  exeFiles : List String

/-- os.path.join for the one shape used here (directory plus file name). -/
def os_path_join (a b : String) : String :=
  if a = "" then b else if pyEndsWith a "/" then a ++ b else a ++ "/" ++ b

/-- is_exe (lines 310-312): the path exists and is executable and
accessible; the model environment lists exactly those paths. -/
def is_exe (env : SearchEnv) (fpath : String) : Bool := env.exeFiles.contains fpath

/-- The PATH scan of find_exe (lines 314-322), over the remaining dirs. -/
def find_exe_dirs (env : SearchEnv) (dirs : List String) (check_exe : String) :
    Option String :=
  match dirs with
  | [] => none
  | d :: rest =>
      if is_exe env (os_path_join d check_exe) then some (os_path_join d check_exe)
      else find_exe_dirs env rest check_exe

/-- find_exe: scan every PATH entry in order, first hit wins, none if the
binary is nowhere on the path. -/
def find_exe (env : SearchEnv) (check_exe : String) : Option String :=
  find_exe_dirs env env.pathDirs check_exe

/-- Result of get_tool: a selected (name, resolved path) pair, the
explicit (None, empty-string) not-found return, or the fatal
debug.error exit with code 2. -/
inductive ToolResult where
  | found : String → String → ToolResult
  | notFound : ToolResult
  | fatal : Int → ToolResult
deriving DecidableEq

/-- The preference loop of get_tool (lines 161-169); the for-else returns
the explicit not-found result when the loop exhausts. -/
def get_tool_prefs (env : SearchEnv) (preferences : List String) : ToolResult :=
  match preferences with
  | [] => ToolResult.notFound
  | n :: rest =>
      match find_exe env n with
      | some p => ToolResult.found n p
      | none => get_tool_prefs env rest

/-- get_tool (lines 145-169).  Python tests `if default_name:` by
truthiness, so an absent or empty default selects the preference loop. -/
def get_tool (env : SearchEnv) (preferences : List String)
    (default_name : Option String) : ToolResult :=
  match default_name with
  | some d =>
      if d = "" then get_tool_prefs env preferences
      else
        match find_exe env d with
        | none => ToolResult.fatal 2
        | some p => ToolResult.found d p
  | none => get_tool_prefs env preferences

/-- A concrete search environment for the C8 witness: two PATH entries,
with only ngspice present, on the second entry. -/
def demoEnv : SearchEnv :=
  { pathDirs := ["/bin", "/usr/bin"], exeFiles := ["/usr/bin/ngspice"] }

/-- The module-global state: OPTS, CHECKPOINT_OPTS (line 19), and the
sys.modules import cache mapping a module name to its attribute dict. -/
structure GState where
  opts : Store
  checkpoint : Option Store
  modules : List (String × List (String × Val))

/-- read_config (lines 172-240) on the global state.  importlib
.import_module executes the config script only when its name is not
already cached in sys.modules; cfgDict is the attribute dict the script
produces when executed.  The Bool flag records whether the script was
executed during this call. -/
def read_config (st : GState) (cfgName : String) (cfgDict : List (String × Val))
    (cwd : String) (iut : Bool) : GState × Bool :=
  match st.modules.lookup cfgName with
  | some d => ({ st with opts := read_config_opts cwd iut st.opts d }, false)
  | none =>
      ({ st with
          opts := read_config_opts cwd iut st.opts cfgDict,
          modules := (cfgName, cfgDict) :: st.modules }, true)

/-- Lines 131-141 of init_openram: for a unit test with an existing
checkpoint, OPTS.__dict__ is replaced by a copy of the checkpoint dict and
the function returns; otherwise a checkpoint is taken iff none exists. -/
def checkpointPhase (rc : GState × Bool) (iut : Bool) : GState × Bool :=
  if iut && rc.1.checkpoint.isSome then
    ({ rc.1 with opts := rc.1.checkpoint.getD rc.1.opts }, rc.2)
  else
    match rc.1.checkpoint with
    | none => ({ rc.1 with checkpoint := some rc.1.opts }, rc.2)
    | some _ => rc

/-- init_openram (lines 105-141) on the global state: setup_paths and
import_tech touch the filesystem and sys.path (their directory events are
modelled in bootstrap_events); read_config then runs unconditionally, and
only afterwards does the checkpoint restore-or-capture happen. -/
def init_openram (st : GState) (cfgName : String) (cfgDict : List (String × Val))
    (cwd : String) (iut : Bool) : GState × Bool :=
  checkpointPhase (read_config st cfgName cfgDict cwd iut) iut

/-- Python values for the checkpoint model, including a mutable list so
that in-place mutation is expressible. -/
inductive HVal where
  | int : Int → HVal
  | str : String → HVal
  | list : List Int → HVal
deriving DecidableEq

/-- A Python object: its __dict__ maps attribute names to heap cells. -/
structure PyObj where
  dict : List (String × Nat)
deriving DecidableEq

/-- The heap, mapping cell id to current value; an in-place mutation of a
Python value (such as list.append) rewrites a cell. -/
structure Heap where
  cells : List (Nat × HVal)
deriving DecidableEq

/-- Observable contents of an object under a heap: attribute name to the
value held in its cell. -/
def contents (h : Heap) (o : PyObj) (k : String) : Option HVal :=
  (o.dict.lookup k).bind (fun c => h.cells.lookup c)

/-- copy.copy(OPTS) at line 141: a shallow copy; the attribute table is
copied fresh but the value cells are shared with the original. -/
def copyCopy (o : PyObj) : PyObj := ⟨o.dict⟩

/-- In-place mutation of one heap cell. -/
def heapWrite (h : Heap) (c : Nat) (v : HVal) : Heap :=
  ⟨h.cells.map (fun e => if e.1 = c then (c, v) else e)⟩

/-- Follows the spec words (an immutable deep copy of the configuration
store): every attribute gets a fresh cell starting at base (assumed
unused), so later in-place mutation through the live object cannot be
observed through the copy.  Stated for comparison with copyCopy, which is
what the source calls. -/
def deepCopy (h : Heap) (o : PyObj) (base : Nat) : Heap × PyObj :=
  (⟨h.cells ++ o.dict.enum.map
      (fun ic => (base + ic.1, (h.cells.lookup ic.2.2).getD (HVal.int 0)))⟩,
   ⟨o.dict.enum.map (fun ic => (ic.2.1, base + ic.1))⟩)

/-- The capture of lines 140-141: only when no checkpoint exists yet is
one taken, as copy.copy of OPTS. -/
def captureCheckpoint (ckpt : Option PyObj) (opts : PyObj) : Option PyObj :=
  match ckpt with
  | none => some (copyCopy opts)
  | some c => some c

/-- Externally visible bootstrap events for the ordering claim. -/
inductive BEvent where
  | mkTempDir : BEvent
  | mkOutputDir : BEvent
  | configError : String → BEvent
deriving DecidableEq

/-- type(x) == int in report_status; Python bools are a distinct type. -/
def isIntVal : Option Val → Bool
  | some (Val.int _) => true
  | _ => false

/-- The argument checks of report_status (lines 373-386) in source order.
Modelled from the spec: debug.error is not among the sources; per the spec
it is fatal with a non-zero exit status, so the first failing check is the
last event and the checks behave as an if-else chain. -/
def report_status_events (opts : Store) : List BEvent :=
  if isIntVal (opts "word_size") = false then
    [BEvent.configError (pyStrOpt (opts "word_size") ++ " is not an integer in config file.")]
  else if isIntVal (opts "num_words") = false then
    [BEvent.configError (pyStrOpt (opts "sram_size") ++ " is not an integer in config file.")]
  else if isIntVal (opts "num_banks") = false then
    [BEvent.configError (pyStrOpt (opts "num_banks") ++ " is not an integer in config file.")]
  else if pyTruthy (opts "tech_name") = false then
    [BEvent.configError "Tech name must be specified in config file."]
  else []

/-- The bootstrap event trace.  Modelled from the spec: the orchestration
(spec section 2) runs init_openram and then validate/report; the
surrounding main script is not among the sources.  Inside init_openram,
setup_paths creates the temporary directory (line 304) before read_config
creates the output directory (line 235); report_status runs last. -/
def bootstrap_events (st : GState) (cfgName : String) (cfgDict : List (String × Val))
    (cwd : String) (iut : Bool) : List BEvent :=
  BEvent.mkTempDir :: BEvent.mkOutputDir ::
    report_status_events (init_openram st cfgName cfgDict cwd iut).1.opts

/-- The configuration stored in the checkpoint of the demo state. -/
def ckStore : Store := fun k =>
  if k = "tech_name" then some (Val.str "scn3me_subm")
  else if k = "word_size" then some (Val.int 4)
  else none

/-- A global state in which a checkpoint has already been captured and one
config script (config_a) has already been imported. -/
def c3State : GState :=
  { opts := demoOpts, checkpoint := some ckStore, modules := [("config_a", [])] }

/-- CLI-derived store for the C5 scenario: word_size is not set by the
command line; the attributes read by the post-merge steps and the later
report checks are present. -/
def c5Opts : Store := fun k =>
  if k = "tech_name" then some (Val.str "scn3me_subm")
  else if k = "output_path" then some (Val.str "/tmp/out")
  else if k = "output_name" then some (Val.str "sram_demo")
  else if k = "netlist_only" then some (Val.bool false)
  else if k = "num_words" then some (Val.int 16)
  else if k = "num_banks" then some (Val.int 1)
  else none

/-- A config script that supplies word_size as a non-integer. -/
def c5Config : List (String × Val) := [("word_size", Val.str "eight")]

/- ======================== THEOREMS ======================== -/

theorem setKey_same (s : Store) (k : String) (v : Val) : setKey s k v k = some v := by
  simp [setKey]

theorem setKey_other (s : Store) (k : String) (v : Val) (q : String) (h : q ≠ k) :
    setKey s k v q = s q := by
  simp [setKey, h]

theorem applyConfigItem_preserves (opts : Store) (c : String × Val) (k : String) (v : Val)
    (hv : opts k = some v) (hk : k ≠ "tech_name") : applyConfigItem opts c k = some v := by
  unfold applyConfigItem
  by_cases hc : opts c.1 = none ∨ c.1 = "tech_name"
  · rw [if_pos hc]
    by_cases hkc : k = c.1
    · exfalso
      rcases hc with h | h
      · rw [← hkc, hv] at h
        cases h
      · exact hk (hkc ▸ h)
    · rw [setKey_other _ _ _ _ hkc]
      exact hv
  · rw [if_neg hc]
    exact hv

theorem applyConfigItem_other (opts : Store) (c : String × Val) (k : String)
    (h : c.1 ≠ k) : applyConfigItem opts c k = opts k := by
  unfold applyConfigItem
  by_cases hc : opts c.1 = none ∨ c.1 = "tech_name"
  · rw [if_pos hc]
    exact setKey_other _ _ _ _ (fun hq => h hq.symm)
  · rw [if_neg hc]

theorem mergeConfig_preserves (config : List (String × Val)) :
    ∀ (opts : Store) (k : String) (v : Val), opts k = some v → k ≠ "tech_name" →
      mergeConfig opts config k = some v := by
  induction config with
  | nil => intro opts k v hv _; exact hv
  | cons c rest ih =>
      intro opts k v hv hk
      exact ih (applyConfigItem opts c) k v (applyConfigItem_preserves opts c k v hv hk) hk

theorem mergeConfig_not_mem (config : List (String × Val)) :
    ∀ (opts : Store) (k : String), (∀ c ∈ config, c.1 ≠ k) →
      mergeConfig opts config k = opts k := by
  induction config with
  | nil => intro opts k _; rfl
  | cons c rest ih =>
      intro opts k h
      have h1 : applyConfigItem opts c k = opts k :=
        applyConfigItem_other opts c k (h c (List.mem_cons_self c rest))
      have h2 := ih (applyConfigItem opts c) k (fun d hd => h d (List.mem_cons_of_mem c hd))
      exact h2.trans h1

theorem mergeConfig_tech (config : List (String × Val)) :
    ∀ (opts : Store) (v : Val), (config.map Prod.fst).Nodup →
      config.lookup "tech_name" = some v →
      mergeConfig opts config "tech_name" = some v := by
  induction config with
  | nil => intro opts v _ hv; cases hv
  | cons c rest ih =>
      intro opts v hnd hv
      rw [List.map_cons, List.nodup_cons] at hnd
      by_cases hc : c.1 = "tech_name"
      · have hlv : v = c.2 := by
          rw [List.lookup, hc] at hv
          simp at hv
          exact hv.symm
        have hnotin : ∀ d ∈ rest, d.1 ≠ "tech_name" := by
          intro d hd hdk
          apply hnd.1
          rw [hc, ← hdk]
          exact List.mem_map_of_mem Prod.fst hd
        have hstep : applyConfigItem opts c "tech_name" = some c.2 := by
          unfold applyConfigItem
          rw [if_pos (Or.inr hc), ← hc]
          exact setKey_same _ _ _
        have := mergeConfig_not_mem rest (applyConfigItem opts c) "tech_name" hnotin
        rw [hlv]
        exact this.trans hstep
      · have hlv : rest.lookup "tech_name" = some v := by
          rw [List.lookup] at hv
          have : ("tech_name" == c.1) = false := by
            simp [beq_iff_eq]
            exact fun h => hc h.symm
          rwa [this] at hv
        exact ih (applyConfigItem opts c) v hnd.2 hlv

theorem postOutputPath_tech (cwd : String) (opts : Store) :
    postOutputPath cwd opts "tech_name" = opts "tech_name" := by
  unfold postOutputPath
  cases hv : opts "output_path" with
  | none => rfl
  | some v =>
      cases v with
      | str p => exact setKey_other _ _ _ _ (by decide)
      | int n => rfl
      | bool b => rfl

theorem postUnitTest_tech (iut : Bool) (opts : Store) :
    postUnitTest iut opts "tech_name" = opts "tech_name" :=
  setKey_other _ _ _ _ (by decide)

theorem postNetlistOnly_tech (opts : Store) :
    postNetlistOnly opts "tech_name" = opts "tech_name" := by
  unfold postNetlistOnly
  by_cases h : pyTruthy (opts "netlist_only") = true
  · rw [if_pos h]
    exact setKey_other _ _ _ _ (by decide)
  · rw [if_neg h]

theorem postOutputName_tech (opts : Store) :
    postOutputName opts "tech_name" = opts "tech_name" := by
  unfold postOutputName
  by_cases h : opts "output_name" = some (Val.str "")
  · rw [if_pos h]
    exact setKey_other _ _ _ _ (by decide)
  · rw [if_neg h]

theorem read_config_post_tech (cwd : String) (iut : Bool) (opts : Store) :
    read_config_post cwd iut opts "tech_name" = opts "tech_name" := by
  unfold read_config_post
  rw [postOutputName_tech, postNetlistOnly_tech, postUnitTest_tech, postOutputPath_tech]

theorem pyEndsWith_iff (s t : String) : pyEndsWith s t = true ↔ t.data <:+ s.data := by
  simp [pyEndsWith, List.isSuffixOf_iff_suffix]

theorem pyStartsWith_iff (s t : String) : pyStartsWith s t = true ↔ t.data <+: s.data := by
  simp [pyStartsWith, List.isPrefixOf_iff_prefix]

theorem pyEndsWith_append_left (a b t : String) (h : pyEndsWith b t = true) :
    pyEndsWith (a ++ b) t = true := by
  rw [pyEndsWith_iff] at h ⊢
  rw [String.data_append]
  exact h.trans (List.suffix_append a.data b.data)

theorem pyStartsWith_append_left (a b t : String) (h : pyStartsWith a t = true) :
    pyStartsWith (a ++ b) t = true := by
  rw [pyStartsWith_iff] at h ⊢
  rw [String.data_append]
  exact h.trans (List.prefix_append a.data b.data)

theorem ensureTrailingSlash_endsWith (p : String) :
    pyEndsWith (ensureTrailingSlash p) "/" = true := by
  unfold ensureTrailingSlash
  by_cases h : pyEndsWith p "/" = true
  · rw [if_pos h]
    exact h
  · rw [if_neg h]
    rw [pyEndsWith_iff, String.data_append]
    exact List.suffix_append _ _

theorem ensureAbsolute_endsWith (cwd p : String) (h : pyEndsWith p "/" = true) :
    pyEndsWith (ensureAbsolute cwd p) "/" = true := by
  unfold ensureAbsolute
  by_cases h2 : pyStartsWith p "/" = true
  · rw [if_pos h2]
    exact h
  · rw [if_neg h2]
    exact pyEndsWith_append_left _ _ _ h

theorem ensureAbsolute_startsWith (cwd p : String) (hc : pyStartsWith cwd "/" = true) :
    pyStartsWith (ensureAbsolute cwd p) "/" = true := by
  unfold ensureAbsolute
  by_cases h2 : pyStartsWith p "/" = true
  · rw [if_pos h2]
    exact h2
  · rw [if_neg h2]
    exact pyStartsWith_append_left _ _ _ (pyStartsWith_append_left _ _ _ hc)

theorem normalizeOutputPath_endsWith (cwd p : String) :
    pyEndsWith (normalizeOutputPath cwd p) "/" = true :=
  ensureAbsolute_endsWith cwd _ (ensureTrailingSlash_endsWith p)

theorem normalizeOutputPath_startsWith (cwd p : String) (hc : pyStartsWith cwd "/" = true) :
    pyStartsWith (normalizeOutputPath cwd p) "/" = true :=
  ensureAbsolute_startsWith cwd _ hc

theorem postOutputPath_eq (cwd : String) (opts : Store) (p : String)
    (h : opts "output_path" = some (Val.str p)) :
    postOutputPath cwd opts "output_path" =
      some (Val.str (normalizeOutputPath cwd p)) := by
  unfold postOutputPath
  rw [h]
  exact setKey_same _ _ _

theorem postUnitTest_outpath (iut : Bool) (opts : Store) :
    postUnitTest iut opts "output_path" = opts "output_path" :=
  setKey_other _ _ _ _ (by decide)

theorem postNetlistOnly_outpath (opts : Store) :
    postNetlistOnly opts "output_path" = opts "output_path" := by
  unfold postNetlistOnly
  by_cases h : pyTruthy (opts "netlist_only") = true
  · rw [if_pos h]
    exact setKey_other _ _ _ _ (by decide)
  · rw [if_neg h]

theorem postOutputName_outpath (opts : Store) :
    postOutputName opts "output_path" = opts "output_path" := by
  unfold postOutputName
  by_cases h : opts "output_name" = some (Val.str "")
  · rw [if_pos h]
    exact setKey_other _ _ _ _ (by decide)
  · rw [if_neg h]

theorem read_config_post_outpath (cwd : String) (iut : Bool) (opts : Store) (p : String)
    (h : opts "output_path" = some (Val.str p)) :
    read_config_post cwd iut opts "output_path" =
      some (Val.str (normalizeOutputPath cwd p)) := by
  unfold read_config_post
  rw [postOutputName_outpath, postNetlistOnly_outpath, postUnitTest_outpath,
      postOutputPath_eq cwd opts p h]

/-- C1: every configuration key k that is already present in the store
before the config-script merge, except the technology-name key, keeps its
stored value through the merge loop of read_config. -/
theorem c1_cli_value_survives_merge (opts : Store) (config : List (String × Val))
    (k : String) (v : Val) (hset : opts k = some v) (hk : k ≠ "tech_name") :
    mergeConfig opts config k = some v :=
  mergeConfig_preserves config opts k v hset hk

/-- C1 witness: the CLI word_size 8 survives a config script that sets
word_size to 16. -/
theorem c1_cli_value_survives_merge_witness :
    mergeConfig demoOpts demoConfig "word_size" = some (Val.int 8) :=
  c1_cli_value_survives_merge demoOpts demoConfig "word_size" (Val.int 8)
    (by decide) (by decide)

/-- C2: if the config script defines tech_name (Python module dicts have
unique keys), then after read_config the stored technology name is the
script value, whatever was stored before. -/
theorem c2_script_tech_name_wins (cwd : String) (iut : Bool) (opts : Store)
    (config : List (String × Val)) (v : Val)
    (hnodup : (config.map Prod.fst).Nodup)
    (hlookup : config.lookup "tech_name" = some v) :
    read_config_opts cwd iut opts config "tech_name" = some v := by
  unfold read_config_opts
  rw [read_config_post_tech]
  exact mergeConfig_tech config opts v hnodup hlookup

/-- C2 witness: a CLI tech name scn3me_subm is overridden by the script
value freepdk45. -/
theorem c2_script_tech_name_wins_witness :
    read_config_opts "/home/user" true demoOpts demoConfig "tech_name" =
      some (Val.str "freepdk45") :=
  c2_script_tech_name_wins "/home/user" true demoOpts demoConfig
    (Val.str "freepdk45") (by decide) (by decide)

/-- C9: after read_config the stored output path ends with a slash and is
absolute whenever the current working directory is absolute; in the quoted
scenario (CLI /tmp/x, script /tmp/y) the result is /tmp/x/. -/
theorem c9_output_path_normalized :
    (∀ (cwd : String) (iut : Bool) (opts : Store) (config : List (String × Val)) (p : String),
        mergeConfig opts config "output_path" = some (Val.str p) →
        read_config_opts cwd iut opts config "output_path" =
            some (Val.str (normalizeOutputPath cwd p)) ∧
          pyEndsWith (normalizeOutputPath cwd p) "/" = true ∧
          (pyStartsWith cwd "/" = true →
            pyStartsWith (normalizeOutputPath cwd p) "/" = true)) ∧
    read_config_opts "/home/user" true demoOpts demoConfig "output_path" =
      some (Val.str "/tmp/x/") := by
  constructor
  · intro cwd iut opts config p hp
    refine ⟨?_, normalizeOutputPath_endsWith cwd p, normalizeOutputPath_startsWith cwd p⟩
    unfold read_config_opts
    exact read_config_post_outpath cwd iut _ p hp
  · decide

/-- C9 witness: the universally quantified part applied at the scenario
input, with its hypothesis discharged by evaluation. -/
theorem c9_output_path_normalized_witness :
    read_config_opts "/home/user" true demoOpts demoConfig "output_path" =
        some (Val.str (normalizeOutputPath "/home/user" "/tmp/x")) ∧
      pyEndsWith (normalizeOutputPath "/home/user" "/tmp/x") "/" = true ∧
      (pyStartsWith "/home/user" "/" = true →
        pyStartsWith (normalizeOutputPath "/home/user" "/tmp/x") "/" = true) :=
  c9_output_path_normalized.1 "/home/user" true demoOpts demoConfig "/tmp/x" (by decide)

/-- C10: after the parse_args tech normalization the stored technology name
is never empty; unspecified (empty) becomes scn3me_subm, scmos becomes
scn3me_subm, and any other supplied name is kept. -/
theorem c10_parse_args_tech_nonempty :
    (∀ t : String, parse_args_tech t ≠ "") ∧
    parse_args_tech "" = "scn3me_subm" ∧
    parse_args_tech "scmos" = "scn3me_subm" ∧
    (∀ t : String, t ≠ "" → t ≠ "scmos" → parse_args_tech t = t) := by
  refine ⟨?_, by decide, by decide, ?_⟩
  · intro t
    unfold parse_args_tech
    by_cases h1 : t = ""
    · rw [if_pos h1]
      decide
    · rw [if_neg h1]
      by_cases h2 : t = "scmos"
      · rw [if_pos h2]
        decide
      · rw [if_neg h2]
        exact h1
  · intro t h1 h2
    unfold parse_args_tech
    rw [if_neg h1, if_neg h2]

/-- C10 witness: a concrete supplied tech name is kept, and the result at a
concrete input is nonempty. -/
theorem c10_parse_args_tech_nonempty_witness :
    parse_args_tech "freepdk45" = "freepdk45" ∧ parse_args_tech "scmos" ≠ "" :=
  ⟨c10_parse_args_tech_nonempty.2.2.2 "freepdk45" (by decide) (by decide),
   c10_parse_args_tech_nonempty.1 "scmos"⟩

theorem removeEntry_eq (cs : List (String × FSEntry)) (c : String × FSEntry) :
    removeEntry cs c = cs.eraseP (fun e => e.1 == c.1) := by
  rcases c with ⟨n, e⟩
  cases e <;> rfl

theorem removeEntry_head (c : String × FSEntry) (rest : List (String × FSEntry)) :
    removeEntry (c :: rest) c = rest := by
  rw [removeEntry_eq, List.eraseP_cons]
  simp

theorem purgeContents_aux :
    ∀ l : List (String × FSEntry), List.foldl removeEntry l l = []
  | [] => rfl
  | c :: rest => by
      rw [List.foldl_cons, removeEntry_head]
      exact purgeContents_aux rest

theorem purgeContents_eq_nil (cs : List (String × FSEntry)) : purgeContents cs = [] :=
  purgeContents_aux cs

/-- C6: with the purge flag enabled, cleanup_paths empties the temporary
directory but keeps the directory itself (also in the concrete scenario
with a file, a symlink and a sub-directory); a second run on the now-empty
directory succeeds and changes nothing; with the flag disabled it changes
nothing at all. -/
theorem c6_cleanup_paths_purges :
    (∀ t : Option FSEntry, cleanup_paths false t = Except.ok t) ∧
    (∀ cs : List (String × FSEntry),
        cleanup_paths true (some (FSEntry.dir cs)) =
          Except.ok (some (FSEntry.dir []))) ∧
    cleanup_paths true (some (FSEntry.dir demoTempDir)) =
        Except.ok (some (FSEntry.dir [])) ∧
    cleanup_paths true (some (FSEntry.dir [])) =
        Except.ok (some (FSEntry.dir [])) := by
  have hall : ∀ cs : List (String × FSEntry),
      cleanup_paths true (some (FSEntry.dir cs)) =
        Except.ok (some (FSEntry.dir [])) := by
    intro cs
    have h0 : cleanup_paths true (some (FSEntry.dir cs)) =
        Except.ok (some (FSEntry.dir (purgeContents cs))) := rfl
    rw [h0, purgeContents_eq_nil]
  exact ⟨fun t => rfl, hall, hall demoTempDir, hall []⟩

/-- C7 counterexample: a creation failure that is an OSError other than
already-exists (errno 13, permission denied) is silently swallowed by both
handlers: status ok, mode untouched, no permission reset.  The claim says
any creation failure other than already-exists is fatal. -/
theorem c7_other_oserror_not_fatal :
    makeOutputDir (some 448) (MakedirsOutcome.osError 13) =
        (some 448, CreateStatus.ok) ∧
    makeTempDir (some 448) (MakedirsOutcome.osError 13) =
        (some 448, CreateStatus.ok) := by
  decide

/-- C7 amended: for both managed directories, creation failure because the
path already exists (errno 17) resets the mode to 0o750 without an error;
any other OSError is silently ignored; a non-OSError failure is fatal for
the output directory and propagates uncaught for the temporary directory;
preparing twice in sequence succeeds both times and leaves the directory
present with mode 0o750. -/
theorem c7_eexist_resets_mode :
    (∀ m : Nat,
        makeOutputDir (some m) (MakedirsOutcome.osError 17) =
            (some 488, CreateStatus.ok) ∧
        makeTempDir (some m) (MakedirsOutcome.osError 17) =
            (some 488, CreateStatus.ok)) ∧
    (∀ (d : Option Nat) (e : Nat), e ≠ 17 →
        makeOutputDir d (MakedirsOutcome.osError e) = (d, CreateStatus.ok) ∧
        makeTempDir d (MakedirsOutcome.osError e) = (d, CreateStatus.ok)) ∧
    (∀ d : Option Nat,
        (makeOutputDir d MakedirsOutcome.otherExc).2 =
          CreateStatus.fatalError "Unable to make output directory." (-1) ∧
        (makeTempDir d MakedirsOutcome.otherExc).2 = CreateStatus.uncaught) ∧
    (prepareOutputDir none = (some 488, CreateStatus.ok) ∧
      prepareOutputDir (some 488) = (some 488, CreateStatus.ok) ∧
      prepareTempDir none = (some 488, CreateStatus.ok) ∧
      prepareTempDir (some 488) = (some 488, CreateStatus.ok)) := by
  refine ⟨fun m => ⟨rfl, rfl⟩, ?_, fun d => ⟨rfl, rfl⟩, by decide⟩
  intro d e he
  constructor
  · show (if e = 17 then (d.map (fun _ => 488), CreateStatus.ok)
        else (d, CreateStatus.ok)) = (d, CreateStatus.ok)
    rw [if_neg he]
  · show (if e = 17 then (d.map (fun _ => 488), CreateStatus.ok)
        else (d, CreateStatus.ok)) = (d, CreateStatus.ok)
    rw [if_neg he]

/-- C7 witness: the amended theorem applied at concrete inputs, with the
errno hypothesis discharged by evaluation. -/
theorem c7_eexist_resets_mode_witness :
    makeOutputDir (some 448) (MakedirsOutcome.osError 17) =
        (some 488, CreateStatus.ok) ∧
    makeOutputDir (some 488) (MakedirsOutcome.osError 20) =
        (some 488, CreateStatus.ok) :=
  ⟨(c7_eexist_resets_mode.1 448).1,
   (c7_eexist_resets_mode.2.1 (some 488) 20 (by decide)).1⟩

theorem get_tool_prefs_all_missing (env : SearchEnv) :
    ∀ preferences : List String, (∀ n ∈ preferences, find_exe env n = none) →
      get_tool_prefs env preferences = ToolResult.notFound := by
  intro prefs
  induction prefs with
  | nil => intro _; rfl
  | cons n rest ih =>
      intro h
      have hn : find_exe env n = none := h n (List.mem_cons_self n rest)
      have hrest := ih (fun m hm => h m (List.mem_cons_of_mem n hm))
      unfold get_tool_prefs
      rw [hn]
      exact hrest

theorem get_tool_prefs_first_hit (env : SearchEnv) :
    ∀ (pre : List String) (n : String) (rest : List String) (p : String),
      (∀ m ∈ pre, find_exe env m = none) → find_exe env n = some p →
      get_tool_prefs env (pre ++ n :: rest) = ToolResult.found n p := by
  intro pre
  induction pre with
  | nil =>
      intro n rest p _ hn
      rw [List.nil_append]
      show (match find_exe env n with
            | some p => ToolResult.found n p
            | none => get_tool_prefs env rest) = ToolResult.found n p
      rw [hn]
  | cons m pre2 ih =>
      intro n rest p h hn
      have hm : find_exe env m = none := h m (List.mem_cons_self m pre2)
      have h2 : ∀ q ∈ pre2, find_exe env q = none :=
        fun q hq => h q (List.mem_cons_of_mem m hq)
      rw [List.cons_append]
      unfold get_tool_prefs
      rw [hm]
      exact ih n rest p h2 hn

theorem find_exe_dirs_first_hit (env : SearchEnv) (name : String) :
    ∀ (pre : List String) (d : String) (rest : List String),
      (∀ d2 ∈ pre, is_exe env (os_path_join d2 name) = false) →
      is_exe env (os_path_join d name) = true →
      find_exe_dirs env (pre ++ d :: rest) name = some (os_path_join d name) := by
  intro pre
  induction pre with
  | nil =>
      intro d rest _ hd
      rw [List.nil_append]
      unfold find_exe_dirs
      rw [hd]
      simp
  | cons d2 pre2 ih =>
      intro d rest h hd
      have h0 : is_exe env (os_path_join d2 name) = false :=
        h d2 (List.mem_cons_self d2 pre2)
      have h2 : ∀ q ∈ pre2, is_exe env (os_path_join q name) = false :=
        fun q hq => h q (List.mem_cons_of_mem d2 hq)
      rw [List.cons_append]
      unfold find_exe_dirs
      rw [h0]
      simp only [Bool.false_eq_true, if_false]
      exact ih d rest h2 hd

/-- C8: with a preference list and no default, get_tool returns the first
preference that resolves (find_exe itself takes the first PATH hit) and an
explicit not-found result when none resolves; with a (truthy) default name
only that name is looked up, absence is the fatal exit 2, presence returns
the default with its resolved path. -/
theorem c8_get_tool_resolution :
    (∀ (env : SearchEnv) (preferences : List String),
        (∀ n ∈ preferences, find_exe env n = none) →
        get_tool env preferences none = ToolResult.notFound) ∧
    (∀ (env : SearchEnv) (pre : List String) (n : String) (rest : List String) (p : String),
        (∀ m ∈ pre, find_exe env m = none) → find_exe env n = some p →
        get_tool env (pre ++ n :: rest) none = ToolResult.found n p) ∧
    (∀ (env : SearchEnv) (name : String) (pre : List String) (d : String) (rest : List String),
        (∀ d2 ∈ pre, is_exe env (os_path_join d2 name) = false) →
        is_exe env (os_path_join d name) = true →
        find_exe { env with pathDirs := pre ++ d :: rest } name =
          some (os_path_join d name)) ∧
    (∀ (env : SearchEnv) (d : String) (preferences : List String), d ≠ "" →
        find_exe env d = none →
        get_tool env preferences (some d) = ToolResult.fatal 2) ∧
    (∀ (env : SearchEnv) (d p : String) (preferences : List String), d ≠ "" →
        find_exe env d = some p →
        get_tool env preferences (some d) = ToolResult.found d p) := by
  refine ⟨?_, ?_, ?_, ?_, ?_⟩
  · intro env prefs h
    exact get_tool_prefs_all_missing env prefs h
  · intro env pre n rest p h hn
    exact get_tool_prefs_first_hit env pre n rest p h hn
  · intro env name pre d rest h hd
    unfold find_exe
    exact find_exe_dirs_first_hit { env with pathDirs := pre ++ d :: rest } name pre d rest h hd
  · intro env d prefs hd hn
    show (if d = "" then get_tool_prefs env prefs
          else match find_exe env d with
               | none => ToolResult.fatal 2
               | some p => ToolResult.found d p) = ToolResult.fatal 2
    rw [if_neg hd, hn]
  · intro env d p prefs hd hp
    show (if d = "" then get_tool_prefs env prefs
          else match find_exe env d with
               | none => ToolResult.fatal 2
               | some q => ToolResult.found d q) = ToolResult.found d p
    rw [if_neg hd, hp]

/-- C8 witness: the claim theorem applied at the concrete environment: the
second preference is selected with its resolved path, a missing default is
the fatal exit, a present default resolves. -/
theorem c8_get_tool_resolution_witness :
    get_tool demoEnv ["hspice", "ngspice"] none =
        ToolResult.found "ngspice" "/usr/bin/ngspice" ∧
    get_tool demoEnv ["hspice"] (some "xyce") = ToolResult.fatal 2 ∧
    get_tool demoEnv [] (some "ngspice") =
        ToolResult.found "ngspice" "/usr/bin/ngspice" := by
  refine ⟨?_, ?_, ?_⟩
  · have h := c8_get_tool_resolution.2.1 demoEnv ["hspice"] "ngspice" []
      "/usr/bin/ngspice" (by decide) (by decide)
    exact h
  · exact c8_get_tool_resolution.2.2.2.1 demoEnv "xyce" ["hspice"] (by decide) (by decide)
  · exact c8_get_tool_resolution.2.2.2.2 demoEnv "ngspice" "/usr/bin/ngspice" []
      (by decide) (by decide)

theorem postOutputPath_other (cwd : String) (opts : Store) (q : String)
    (h : q ≠ "output_path") : postOutputPath cwd opts q = opts q := by
  unfold postOutputPath
  cases hv : opts "output_path" with
  | none => rfl
  | some v =>
      cases v with
      | str p => exact setKey_other _ _ _ _ h
      | int n => rfl
      | bool b => rfl

theorem postUnitTest_other (iut : Bool) (opts : Store) (q : String)
    (h : q ≠ "is_unit_test") : postUnitTest iut opts q = opts q :=
  setKey_other _ _ _ _ h

theorem postNetlistOnly_other (opts : Store) (q : String)
    (h : q ≠ "check_lvsdrc") : postNetlistOnly opts q = opts q := by
  unfold postNetlistOnly
  by_cases hn : pyTruthy (opts "netlist_only") = true
  · rw [if_pos hn]
    exact setKey_other _ _ _ _ h
  · rw [if_neg hn]

theorem postOutputName_other (opts : Store) (q : String)
    (h : q ≠ "output_name") : postOutputName opts q = opts q := by
  unfold postOutputName
  by_cases hn : opts "output_name" = some (Val.str "")
  · rw [if_pos hn]
    exact setKey_other _ _ _ _ h
  · rw [if_neg hn]

theorem read_config_post_other (cwd : String) (iut : Bool) (opts : Store) (q : String)
    (h1 : q ≠ "output_path") (h2 : q ≠ "is_unit_test")
    (h3 : q ≠ "check_lvsdrc") (h4 : q ≠ "output_name") :
    read_config_post cwd iut opts q = opts q := by
  unfold read_config_post
  rw [postOutputName_other _ _ h4, postNetlistOnly_other _ _ h3,
      postUnitTest_other _ _ _ h2, postOutputPath_other _ _ _ h1]

theorem read_config_post_word_size (cwd : String) (iut : Bool) (opts : Store) :
    read_config_post cwd iut opts "word_size" = opts "word_size" :=
  read_config_post_other cwd iut opts "word_size"
    (by decide) (by decide) (by decide) (by decide)

/-- A key that the CLI left unset and the config script defines is merged
in from the script (Python dicts have unique keys). -/
theorem mergeConfig_new_key (config : List (String × Val)) :
    ∀ (opts : Store) (k : String) (v : Val), (config.map Prod.fst).Nodup →
      opts k = none → config.lookup k = some v →
      mergeConfig opts config k = some v := by
  induction config with
  | nil => intro opts k v _ _ hv; cases hv
  | cons c rest ih =>
      intro opts k v hnd hnone hv
      rw [List.map_cons, List.nodup_cons] at hnd
      by_cases hc : c.1 = k
      · have hlv : v = c.2 := by
          rw [List.lookup, hc] at hv
          simp at hv
          exact hv.symm
        have hnotin : ∀ d ∈ rest, d.1 ≠ k := by
          intro d hd hdk
          apply hnd.1
          rw [hc, ← hdk]
          exact List.mem_map_of_mem Prod.fst hd
        have hnonec : opts c.1 = none := by rw [hc]; exact hnone
        have hstep : applyConfigItem opts c k = some c.2 := by
          unfold applyConfigItem
          rw [if_pos (Or.inl hnonec), ← hc]
          exact setKey_same _ _ _
        have hrest := mergeConfig_not_mem rest (applyConfigItem opts c) k hnotin
        rw [hlv]
        exact hrest.trans hstep
      · have hstep : applyConfigItem opts c k = opts k := applyConfigItem_other opts c k hc
        have hlv : rest.lookup k = some v := by
          rw [List.lookup] at hv
          have hne : (k == c.1) = false := by
            simp [beq_iff_eq]
            exact fun h => hc h.symm
          rwa [hne] at hv
        exact ih (applyConfigItem opts c) k v hnd.2 (hstep.trans hnone) hlv

theorem read_config_checkpoint (st : GState) (cfgName : String)
    (cfgDict : List (String × Val)) (cwd : String) (iut : Bool) :
    (read_config st cfgName cfgDict cwd iut).1.checkpoint = st.checkpoint := by
  unfold read_config
  cases st.modules.lookup cfgName <;> rfl

theorem init_openram_first_opts (st : GState) (cfgName : String)
    (cfgDict : List (String × Val)) (cwd : String) (iut : Bool)
    (hmods : st.modules.lookup cfgName = none) (hck : st.checkpoint = none) :
    (init_openram st cfgName cfgDict cwd iut).1.opts =
      read_config_opts cwd iut st.opts cfgDict := by
  unfold init_openram read_config
  rw [hmods]
  unfold checkpointPhase
  simp [hck]

/-- C3 counterexample: with a checkpoint already captured, a unit-test
bootstrap whose config file is not yet in the import cache still imports
and executes the config script, because read_config runs before the
restore; the claim says the script is never imported in that call. -/
theorem c3_config_still_imported :
    (init_openram c3State "config_b" [("word_size", Val.int 2)] "/home/user" true).2
      = true := by
  decide

/-- C3 amended: with a checkpoint already captured, a unit-test bootstrap
still runs read_config (importing the script when it is not cached), but on
return OPTS is attribute-for-attribute identical to the checkpoint, which
is itself unchanged. -/
theorem c3_restore_matches_checkpoint (st : GState) (cfgName : String)
    (cfgDict : List (String × Val)) (cwd : String) (c : Store)
    (hc : st.checkpoint = some c) :
    (init_openram st cfgName cfgDict cwd true).1.opts = c ∧
    (init_openram st cfgName cfgDict cwd true).1.checkpoint = some c := by
  have h1 : (read_config st cfgName cfgDict cwd true).1.checkpoint = some c :=
    (read_config_checkpoint st cfgName cfgDict cwd true).trans hc
  unfold init_openram checkpointPhase
  rw [h1]
  constructor
  · rfl
  · show (read_config st cfgName cfgDict cwd true).1.checkpoint = some c
    exact h1

/-- C3 witness: the amended theorem applied at the demo state. -/
theorem c3_restore_matches_checkpoint_witness :
    (init_openram c3State "config_b" [("word_size", Val.int 2)] "/home/user" true).1.opts
      = ckStore :=
  (c3_restore_matches_checkpoint c3State "config_b" [("word_size", Val.int 2)]
    "/home/user" ckStore rfl).1

/-- C4 counterexample: the checkpoint taken by copy.copy shares value
cells with OPTS, so an in-place mutation of a shared mutable value after
capture changes the observable contents of the checkpoint (here from
list [1] to list [1, 2]), while a deep copy as claimed would keep
observing list [1]; the checkpoint is therefore not an immutable deep
copy. -/
theorem c4_shallow_copy_shares_cells :
    contents ⟨[(0, HVal.list [1])]⟩ (copyCopy ⟨[("supply_voltages", 0)]⟩)
        "supply_voltages" = some (HVal.list [1]) ∧
    contents (heapWrite ⟨[(0, HVal.list [1])]⟩ 0 (HVal.list [1, 2]))
        (copyCopy ⟨[("supply_voltages", 0)]⟩) "supply_voltages"
        = some (HVal.list [1, 2]) ∧
    contents (heapWrite (deepCopy ⟨[(0, HVal.list [1])]⟩ ⟨[("supply_voltages", 0)]⟩ 1).1
        0 (HVal.list [1, 2]))
        (deepCopy ⟨[(0, HVal.list [1])]⟩ ⟨[("supply_voltages", 0)]⟩ 1).2 "supply_voltages"
        = some (HVal.list [1]) := by
  decide

/-- C4 amended: the checkpoint is a shallow copy (fresh attribute table,
shared value cells) taken at most once: the first capture copies OPTS, a
capture with an existing checkpoint is a no-op, capturing is idempotent,
the copy initially agrees with OPTS attribute-for-attribute, and
init_openram never replaces an existing checkpoint. -/
theorem c4_checkpoint_shallow_and_once :
    (∀ o : PyObj, captureCheckpoint none o = some (copyCopy o)) ∧
    (∀ c o : PyObj, captureCheckpoint (some c) o = some c) ∧
    (∀ (ck : Option PyObj) (o o2 : PyObj),
        captureCheckpoint (captureCheckpoint ck o) o2 = captureCheckpoint ck o) ∧
    (∀ o : PyObj, (copyCopy o).dict = o.dict) ∧
    (∀ (h : Heap) (o : PyObj) (k : String), contents h (copyCopy o) k = contents h o k) ∧
    (∀ (st : GState) (cfgName : String) (cfgDict : List (String × Val))
        (cwd : String) (iut : Bool) (c : Store), st.checkpoint = some c →
        (init_openram st cfgName cfgDict cwd iut).1.checkpoint = some c) := by
  refine ⟨fun o => rfl, fun c o => rfl, ?_, fun o => rfl, fun h o k => rfl, ?_⟩
  · intro ck o o2
    cases ck <;> rfl
  · intro st cfgName cfgDict cwd iut c hc
    have h1 : (read_config st cfgName cfgDict cwd iut).1.checkpoint = some c :=
      (read_config_checkpoint st cfgName cfgDict cwd iut).trans hc
    unfold init_openram checkpointPhase
    by_cases hcond : (iut && (read_config st cfgName cfgDict cwd iut).1.checkpoint.isSome) = true
    · rw [if_pos hcond]
      exact h1
    · rw [if_neg hcond, h1]
      exact h1

/-- C4 witness: the conjunct with a hypothesis applied at the demo state
that already holds a checkpoint. -/
theorem c4_checkpoint_shallow_and_once_witness :
    (init_openram c3State "config_c" [] "/home/user" false).1.checkpoint = some ckStore :=
  c4_checkpoint_shallow_and_once.2.2.2.2.2 c3State "config_c" [] "/home/user" false
    ckStore rfl

/-- C5 counterexample: a config script supplying word_size as a
non-integer makes the bootstrap fail with a configuration error, but only
as the third event, after the temporary directory and the output
directory have both been created; the claim says the failure occurs
before any directory is created. -/
theorem c5_dirs_created_before_error :
    bootstrap_events ⟨c5Opts, none, []⟩ "myconfig" c5Config "/home/user" false =
      [BEvent.mkTempDir, BEvent.mkOutputDir,
       BEvent.configError "eight is not an integer in config file."] := by
  decide

/-- C5 amended: on a first bootstrap (no checkpoint, config not yet
cached) whose config script supplies word_size as a value that is not an
integer and that the CLI left unset, the run fails with a fatal
configuration error, but only after the temporary workspace and the
output directory have been created. -/
theorem c5_error_after_directories (st : GState) (cfgName : String)
    (cfgDict : List (String × Val)) (cwd : String) (iut : Bool) (v : Val)
    (hmods : st.modules.lookup cfgName = none)
    (hck : st.checkpoint = none)
    (hcli : st.opts "word_size" = none)
    (hnodup : (cfgDict.map Prod.fst).Nodup)
    (hv : cfgDict.lookup "word_size" = some v)
    (hnotint : isIntVal (some v) = false) :
    bootstrap_events st cfgName cfgDict cwd iut =
      [BEvent.mkTempDir, BEvent.mkOutputDir,
       BEvent.configError (pyStr v ++ " is not an integer in config file.")] := by
  have hopts : (init_openram st cfgName cfgDict cwd iut).1.opts "word_size" = some v := by
    rw [init_openram_first_opts st cfgName cfgDict cwd iut hmods hck]
    unfold read_config_opts
    rw [read_config_post_word_size]
    exact mergeConfig_new_key cfgDict st.opts "word_size" v hnodup hcli hv
  unfold bootstrap_events report_status_events
  rw [hopts, if_pos hnotint]
  rfl

/-- C5 witness: the amended theorem applied at a concrete first-bootstrap
state with word_size given as the string 4.5. -/
theorem c5_error_after_directories_witness :
    bootstrap_events ⟨c5Opts, none, []⟩ "otherconfig" [("word_size", Val.str "4.5")]
        "/home/user" true =
      [BEvent.mkTempDir, BEvent.mkOutputDir,
       BEvent.configError (pyStr (Val.str "4.5") ++ " is not an integer in config file.")] :=
  c5_error_after_directories ⟨c5Opts, none, []⟩ "otherconfig"
    [("word_size", Val.str "4.5")] "/home/user" true (Val.str "4.5")
    rfl rfl (by decide) (by decide) (by decide) (by decide)

end OpenRAM

